import Mathlib

/-!
# Verification of the OpenClaw / Agent Lightning bridge

A shallow embedding, in Lean 4, of the core of the
`openclaw-lightning` repository:

* `src/lightning/bridge/openclaw_integration.py` — the
  `OpenClawLightningTracer` class: session lifecycle (`start_session`,
  `trace_tool`, `emit_task_reward`, `end_session`) and the reward
  calculation.
* `src/lightning/bridge/lightning_bridge_service.py` — the HTTP bridge
  handlers (`handle_session_start`, `handle_tool_trace`,
  `handle_session_end`, `handle_stats`) and the module-level session
  registry.

Modelling conventions:

* Python `float` values (times, durations, rewards) are modelled as `ℚ`.
  The claims under study concern branch conditions and determinism, not
  IEEE-754 rounding, and every numeric literal involved (1.0, -0.5, 0.1,
  0.2, 30.0) enters only through additions and order comparisons that
  agree between `ℚ` and binary floating point on the inputs used.
* Python `int` values are modelled as `Int`; optional arguments as
  `Option _`.  Python truthiness of an optional number (`if x:`) is
  `x ≠ None and x ≠ 0` and is modelled explicitly.
* Exceptions that a collaborator (the tracing backend) may raise are
  modelled as explicit `Bool`/`Option` parameters of each operation
  ("does `store.start_rollout` raise?", "does `ctx.__aexit__` raise?"),
  since the Python code treats them as opaque `Exception`s.
* `time.time()` is modelled as an explicit `now : ℚ` parameter.
* Every `try/except Exception` in the source absorbs the exception; an
  operation therefore returns a plain state (total function) except for
  `trace_tool`, whose caller-visible outcome (normal return vs. raised
  exception) is part of its result.
-/

namespace OpenClawLightning

/-- A Python exception, as far as the model distinguishes them.
`workExc n` is an (arbitrary, tagged) exception raised by the work
wrapped by `trace_tool`; `runtimeGeneratorDidNotStop` is the
`RuntimeError("generator didn't stop after throw()")` that
`contextlib._GeneratorContextManager.__exit__` raises when the
generator yields again after an exception was thrown into it. -/
inductive PyExc where
  | workExc (n : Nat)
  | runtimeGeneratorDidNotStop
  deriving DecidableEq, Repr

/-- The rollout handle returned by `store.start_rollout`
(`openclaw_integration.py` line 108): carries `rollout_id` and
`attempt.attempt_id`. -/
structure Rollout where
  rolloutId : Nat
  attemptId : Nat
  deriving DecidableEq, Repr

/-- The mutable fields of `OpenClawLightningTracer`
(`openclaw_integration.py` lines 55-61):
`enabled`, `current_rollout`, `current_tracer_ctx`,
`session_start_time`, `tool_call_count`.  The `tracer`/`store` backend
objects themselves carry no state the claims mention and are left
opaque (their behaviour is a parameter of each operation). -/
structure TracerState where
  enabled : Bool
  current_rollout : Option Rollout
  current_tracer_ctx : Option Unit
  session_start_time : Option ℚ
  tool_call_count : Nat
  deriving DecidableEq, Repr

/-- The state right after `__init__` when the gate is closed (flag off,
library missing, or backend construction failed): `enabled = False`,
everything else idle (`openclaw_integration.py` lines 53-71). -/
def idleTracer (enabled : Bool) : TracerState :=
  { enabled := enabled
    current_rollout := none
    current_tracer_ctx := none
    session_start_time := none
    tool_call_count := 0 }

/-- `__init__` + `_check_enabled` (`openclaw_integration.py` lines
53-84): enabled iff the feature flag is `"true"`, the library imported,
and `OtelTracer()` / `InMemoryLightningStore()` constructed without
raising; any construction failure is caught and forces
`enabled = False`. -/
def initTracer (flagTrue libAvailable constructFails : Bool) : TracerState :=
  idleTracer (flagTrue && libAvailable && !constructFails)

/-- The IDLE configuration of the trace-context manager: no open trace
context, no rollout reference, no session start time, zero counter. -/
def TracerState.isIdle (s : TracerState) : Prop :=
  s.current_tracer_ctx = none ∧ s.current_rollout = none ∧
    s.session_start_time = none ∧ s.tool_call_count = 0

instance (s : TracerState) : Decidable s.isIdle := by
  unfold TracerState.isIdle; infer_instance

/-! ## Reward calculation (`emit_task_reward`, lines 191-212)

The reward accumulation `reward = base; reward += …` is rendered as a
sum of one term per `if`, each term mirroring exactly the Python
condition that guards its `reward += …`. -/

/-- Base reward, line 193: `1.0 if success else -0.5`. -/
def baseReward (success : Bool) : ℚ :=
  if success then 1 else -1/2

/-- Python truthiness of an optional integer: `None` and `0` are falsy. -/
def truthyInt : Option Int → Bool
  | none => false
  | some n => n != 0

/-- Python truthiness of an optional float (here `ℚ`): `None` and `0.0`
are falsy. -/
def truthyRat : Option ℚ → Bool
  | none => false
  | some q => q != 0

/-- Token efficiency bonus, lines 196-198:
`if tokens_used and expected_tokens and tokens_used < expected_tokens:
reward += 0.1`.  Note the Python condition tests truthiness, not
presence: `tokens_used = 0` fails it. -/
def tokenBonus (tokens_used expected_tokens : Option Int) : ℚ :=
  if truthyInt tokens_used && truthyInt expected_tokens
      && (tokens_used.getD 0 < expected_tokens.getD 0) then 1/10 else 0

/-- Effective duration, lines 201-202:
`if duration_seconds is None and self.session_start_time:
duration_seconds = time.time() - self.session_start_time`.
The substitution happens only when `duration_seconds` is `None` AND the
start time is truthy (set and nonzero). -/
def effectiveDuration (duration_seconds : Option ℚ)
    (session_start_time : Option ℚ) (now : ℚ) : Option ℚ :=
  if duration_seconds = none && truthyRat session_start_time then
    some (now - session_start_time.getD 0)
  else duration_seconds

/-- Time efficiency bonus, lines 204-206:
`if duration_seconds and duration_seconds < 30.0: reward += 0.1`,
applied to the effective duration.  Truthiness again: an effective
duration of exactly `0.0` fails the test. -/
def timeBonus (duration_seconds : Option ℚ)
    (session_start_time : Option ℚ) (now : ℚ) : ℚ :=
  let d := effectiveDuration duration_seconds session_start_time now
  if truthyRat d && (d.getD 0 < 30) then 1/10 else 0

/-- User feedback term, lines 209-211:
`if user_rating is not None: reward += (user_rating - 3) * 0.2`.
This one tests presence (`is not None`), not truthiness. -/
def feedbackBonus (user_rating : Option Int) : ℚ :=
  match user_rating with
  | none => 0
  | some r => (r - 3) * (1/5)

/-- The reward value computed by `emit_task_reward` (lines 191-212):
base + token bonus + time bonus + feedback term, with `now` standing
for the `time.time()` call on line 202. -/
def computeReward (success : Bool) (tokens_used expected_tokens : Option Int)
    (duration_seconds : Option ℚ) (user_rating : Option Int)
    (session_start_time : Option ℚ) (now : ℚ) : ℚ :=
  baseReward success + tokenBonus tokens_used expected_tokens
    + timeBonus duration_seconds session_start_time now
    + feedbackBonus user_rating

/-- The argument tuple of `emit_task_reward` (lines 162-169). -/
structure RewardArgs where
  success : Bool
  tokens_used : Option Int := none
  expected_tokens : Option Int := none
  duration_seconds : Option ℚ := none
  user_rating : Option Int := none
  deriving DecidableEq, Repr

/-- `emit_task_reward` (lines 162-224).  Returns the reward value passed
to `emit_reward`, or `none` when the guard on line 188
(`if not self.enabled or not self.current_tracer_ctx: return`) makes
the call a no-op.  The method assigns no attribute of `self`, so the
tracer state is unchanged on every path; a failure of `emit_reward`
itself (or of the subsequent logging) is caught on line 223 and
affects nothing the model tracks. -/
def emit_task_reward (s : TracerState) (args : RewardArgs) (now : ℚ) :
    Option ℚ :=
  if !s.enabled || s.current_tracer_ctx.isNone then none
  else some (computeReward args.success args.tokens_used
    args.expected_tokens args.duration_seconds args.user_rating
    s.session_start_time now)

/-! ## `start_session` (lines 86-127) -/

/-- `start_session` (lines 86-127), with the backend's behaviour made
explicit: `rollout = some r` means `store.start_rollout` returned `r`,
`rollout = none` means it raised; `ctxOpenFails` means the inner
try-block (lines 111-118: `lifespan(...).__enter__()` /
`trace_context(...).__aenter__()`) raised.

Path by path, as in the source:
* gate closed (line 93): immediate return, nothing touched;
* otherwise the method first sets `session_start_time = time.time()`
  and `tool_call_count = 0` (lines 97-98), then calls
  `store.start_rollout` (line 108);
* if that raises, the outer `except` (lines 125-127) catches it and
  sets `enabled = False`; the assignments already made persist and
  `current_rollout` / `current_tracer_ctx` keep their previous values;
* if it returns `r`, `current_rollout = r`; the inner try opens the
  trace context; on its failure the inner `except` (lines 119-121)
  sets `current_tracer_ctx = None` without touching `enabled`. -/
def start_session (s : TracerState) (now : ℚ) (rollout : Option Rollout)
    (ctxOpenFails : Bool) : TracerState :=
  if !s.enabled then s
  else
    let s1 : TracerState :=
      { s with session_start_time := some now, tool_call_count := 0 }
    match rollout with
    | none => { s1 with enabled := false }
    | some r =>
        let s2 : TracerState := { s1 with current_rollout := some r }
        if ctxOpenFails then { s2 with current_tracer_ctx := none }
        else { s2 with current_tracer_ctx := some () }

/-! ## `trace_tool` (lines 129-160)

`trace_tool` is a `@contextmanager` generator.  Its semantics to the
caller of the `with` statement follow the `contextlib`
`_GeneratorContextManager` protocol:

* `__enter__` runs the generator to its first `yield`;
* if the `with` body returns normally, `__exit__` calls `next(gen)`
  and expects `StopIteration`;
* if the `with` body raises, `__exit__` throws the exception into the
  generator at the suspended `yield`; if the generator then *yields
  again* instead of stopping, `contextlib` raises
  `RuntimeError("generator didn't stop after throw()")` to the caller.

The model makes the wrapped work an explicit parameter
`work : Except PyExc α` (its one-shot outcome), and span setup — the
`start_as_current_span(...)` call on line 147 and the
`span.set_attribute` calls on lines 149-154 — an explicit behaviour
parameter. -/

/-- How span setup behaves in one `trace_tool` call: succeeds, the
`start_as_current_span` call itself raises (span never opened), or an
attribute call raises inside the span's `with` (span opened and then
closed by its own `__exit__`). -/
inductive SpanSetup where
  | ok
  | openFails
  | attrFails
  deriving DecidableEq, Repr

/-- What one `with tracer.trace_tool(...):` block does, observed from
the caller. -/
structure TraceToolResult (α : Type) where
  /-- tracer state after the block. -/
  state : TracerState
  /-- how many times the wrapped work (the `with` body) executed. -/
  workRuns : Nat
  /-- whether a child span was opened. -/
  spanOpened : Bool
  /-- whether every opened child span was closed again. -/
  spanClosed : Bool
  /-- what the caller of the `with` statement observes: the work's
  normal result, or an exception propagating out of the block. -/
  outcome : Except PyExc α

/-- `trace_tool` (lines 129-160) under the generator/context-manager
protocol:

* line 140: gate closed or no active context → single bare `yield`:
  the body runs once and its outcome (return value or exception)
  passes through unchanged;
* otherwise `tool_call_count += 1` (line 145), then:
  * span setup raises (opening, line 147, or an attribute, lines
    149-154) → caught by `except Exception` (line 158) whose `yield`
    (line 160) runs the body once; there is no handler around that
    second-position `yield`, so the body's outcome passes through
    unchanged;
  * setup succeeds and the body returns normally → the generator
    resumes past the `yield` (line 156), the span's `with` closes the
    span, the generator stops: the result is returned unchanged;
  * setup succeeds and the body raises `e` → `e` is thrown into the
    generator at line 156; the span's `__exit__` closes the span and
    lets `e` propagate; the `except Exception` on line 158 catches `e`
    and `yield`s again (line 160); the generator thus fails to stop,
    and `contextlib` raises
    `RuntimeError("generator didn't stop after throw()")` to the
    caller in place of `e`.  The body is *not* re-executed: the second
    `yield` merely suspends the generator. -/
def trace_tool {α : Type} (s : TracerState) (setup : SpanSetup)
    (work : Except PyExc α) : TraceToolResult α :=
  if !s.enabled || s.current_tracer_ctx.isNone then
    { state := s, workRuns := 1, spanOpened := false, spanClosed := true
      outcome := work }
  else
    let s1 : TracerState := { s with tool_call_count := s.tool_call_count + 1 }
    match setup with
    | .openFails =>
        { state := s1, workRuns := 1, spanOpened := false, spanClosed := true
          outcome := work }
    | .attrFails =>
        { state := s1, workRuns := 1, spanOpened := true, spanClosed := true
          outcome := work }
    | .ok =>
        match work with
        | .ok a =>
            { state := s1, workRuns := 1, spanOpened := true
              spanClosed := true, outcome := .ok a }
        | .error _ =>
            { state := s1, workRuns := 1, spanOpened := true
              spanClosed := true
              outcome := .error .runtimeGeneratorDidNotStop }

/-! ## `end_session` (lines 226-252) -/

/-- `end_session` (lines 226-252), with `aexitThrows` standing for
"`current_tracer_ctx.__aexit__` raised":

* gate closed (line 233): immediate return, nothing touched;
* a context is open and `__aexit__` raises (line 238): the exception
  jumps straight to the `except` on line 251, which only logs — none
  of the assignments on lines 239 and 247-249 run, so every field
  keeps its value;
* otherwise the body runs to the end: `current_tracer_ctx = None`
  (line 239, when a context was open), `current_rollout = None`,
  `session_start_time = None`, `tool_call_count = 0` (lines 247-249).
All exceptions are absorbed (`except Exception`, line 251); the caller
never sees one, which the model reflects by returning a plain state. -/
def end_session (s : TracerState) (aexitThrows : Bool) : TracerState :=
  if !s.enabled then s
  else if s.current_tracer_ctx.isSome && aexitThrows then s
  else
    { s with current_tracer_ctx := none, current_rollout := none
             session_start_time := none, tool_call_count := 0 }

/-! ## The tracer as a transition system -/

/-- One invocation of a tracer method, with the behaviour of the
tracing backend (and, for `trace_tool`, of the wrapped work) made
explicit.  `get_session_stats` reads state without mutating it and is
omitted. -/
inductive Op where
  | startSession (now : ℚ) (rollout : Option Rollout) (ctxOpenFails : Bool)
  | traceTool (setup : SpanSetup) (work : Except PyExc Unit)
  | emitReward (args : RewardArgs) (now : ℚ)
  | endSession (aexitThrows : Bool)

/-- The state reached by running one operation.  `emit_task_reward`
assigns no attribute of `self` (lines 162-224), so its transition is
the identity on state. -/
def step (s : TracerState) : Op → TracerState
  | .startSession now rollout ctxOpenFails =>
      start_session s now rollout ctxOpenFails
  | .traceTool setup work => (trace_tool s setup work).state
  | .emitReward _ _ => s
  | .endSession aexitThrows => end_session s aexitThrows

/-! ## The bridge service (`lightning_bridge_service.py`)

Module state (lines 46-48): a global `tracer : Optional[Tracer]` and a
dict `current_sessions` from session id to a record
`{'started_at', 'message', 'tool_count'}`.  The dict is modelled as an
insertion-ordered association list with unique keys, matching Python
`dict` semantics for the operations used (`in`, `[k] = v`, `del`,
`len`). -/

/-- One entry of `current_sessions` (lines 72-76). -/
structure SessionRecord where
  started_at : String
  message : String
  tool_count : Nat
  deriving DecidableEq, Repr

/-- Python `k in d`. -/
def hasKey (m : List (String × SessionRecord)) (k : String) : Bool :=
  m.any (fun p => p.1 == k)

/-- Python `d[k] = v`: replace in place if present, else append. -/
def setKey (m : List (String × SessionRecord)) (k : String)
    (v : SessionRecord) : List (String × SessionRecord) :=
  if hasKey m k then m.map (fun p => if p.1 == k then (k, v) else p)
  else m ++ [(k, v)]

/-- Python `if k in d: del d[k]` (handlers only delete after a
membership test, lines 182-183 and 192-193). -/
def delKey (m : List (String × SessionRecord)) (k : Option String) :
    List (String × SessionRecord) :=
  match k with
  | none => m
  | some sid => m.filter (fun p => p.1 != sid)

/-- Python `d[k]['tool_count'] += 1` guarded by `if k in d`
(lines 115-116). -/
def bumpToolCount (m : List (String × SessionRecord)) (k : String) :
    List (String × SessionRecord) :=
  m.map (fun p => if p.1 == k then
    (p.1, { p.2 with tool_count := p.2.tool_count + 1 }) else p)

/-- The bridge module's mutable globals (lines 46-48): `tracer = None`
and `current_sessions = {}` at import time. -/
structure BridgeState where
  tracer : Option TracerState
  current_sessions : List (String × SessionRecord)

/-- The state at module import (lines 46-48). -/
def initialBridgeState : BridgeState := ⟨none, []⟩

/-- Response of `POST /session/start` on the success path (lines
80-84): `{'success': True, 'session_id': sid, 'enabled': ...}`. -/
structure StartResp where
  success : Bool
  session_id : String
  enabled : Bool
  deriving DecidableEq, Repr

/-- `handle_session_start` (lines 51-91) on a well-formed JSON body:

* `message` defaults to `''`, `session_id` to
  `f"session-{datetime.now().timestamp()}"` (the timestamp string is
  the `genTs` parameter), `metadata` is only forwarded to
  `start_session` and carries no modelled state;
* if `tracer is None` it is constructed (`OpenClawLightningTracer()`,
  whose behaviour the three construction parameters determine);
* `tracer.start_session` runs (a no-op when disabled; its backend
  behaviour is the `rollout`/`ctxOpenFails` parameters and it absorbs
  its own failures, see `start_session`);
* the session is registered under `sid` with `tool_count = 0`;
* the response reports `success: True`, the sid, and the tracer's
  `enabled` flag as read after `start_session`. -/
def handle_session_start (bs : BridgeState) (message : String)
    (session_id : Option String) (genTs : String)
    (flagTrue libAvailable constructFails : Bool)
    (now : ℚ) (rollout : Option Rollout) (ctxOpenFails : Bool)
    (nowIso : String) : BridgeState × StartResp :=
  let sid := session_id.getD ("session-" ++ genTs)
  let t0 := match bs.tracer with
    | none => initTracer flagTrue libAvailable constructFails
    | some t => t
  let t1 := start_session t0 now rollout ctxOpenFails
  let sessions := setKey bs.current_sessions sid
    { started_at := nowIso, message := message, tool_count := 0 }
  (⟨some t1, sessions⟩, ⟨true, sid, t1.enabled⟩)

/-- Response of `POST /tool/trace`: either the disabled envelope
`{'success': True, 'traced': False, 'reason': 'tracing disabled'}`
(lines 105-109) or the traced envelope
`{'success': True, 'traced': True, 'tool_name': ...}` (lines 118-122);
a field absent from the JSON is `none`. -/
structure ToolTraceResp where
  success : Bool
  traced : Bool
  tool_name : Option String
  reason : Option String
  deriving DecidableEq, Repr

/-- `handle_tool_trace` (lines 94-129) on a well-formed JSON body:
if the tracer is unset or disabled, reply `traced: False` and touch
nothing; otherwise increment the registered session's `tool_count`
when `session_id` is a registered key (lines 115-116) and reply
`traced: True` echoing `tool_name`.  No registry entry is created and
the tracer itself is not called. -/
def handle_tool_trace (bs : BridgeState) (session_id : Option String)
    (tool_name : Option String) : BridgeState × ToolTraceResp :=
  let disabledResp : ToolTraceResp := ⟨true, false, none, some "tracing disabled"⟩
  match bs.tracer with
  | none => (bs, disabledResp)
  | some t =>
    if !t.enabled then (bs, disabledResp)
    else
      let sessions := match session_id with
        | none => bs.current_sessions
        | some sid =>
            if hasKey bs.current_sessions sid then
              bumpToolCount bs.current_sessions sid
            else bs.current_sessions
      (⟨bs.tracer, sessions⟩, ⟨true, true, tool_name, none⟩)

/-- Response of `POST /session/end`: the disabled envelope
`{'success': True, 'ended': False, 'reason': 'tracing disabled'}`
(lines 184-188) or `{'success': True, 'ended': True}`
(lines 197-200). -/
structure EndResp where
  success : Bool
  ended : Bool
  reason : Option String
  deriving DecidableEq, Repr

/-- `handle_session_end` (lines 173-207) on a well-formed JSON body:
if the tracer is unset or disabled, delete the registry entry (if
present) and reply `ended: False`; otherwise run
`tracer.end_session()` (which absorbs its own failures,
`aexitThrows`), delete the entry, and reply `ended: True`. -/
def handle_session_end (bs : BridgeState) (session_id : Option String)
    (aexitThrows : Bool) : BridgeState × EndResp :=
  match bs.tracer with
  | none =>
      (⟨bs.tracer, delKey bs.current_sessions session_id⟩,
       ⟨true, false, some "tracing disabled"⟩)
  | some t =>
    if !t.enabled then
      (⟨bs.tracer, delKey bs.current_sessions session_id⟩,
       ⟨true, false, some "tracing disabled"⟩)
    else
      let t1 := end_session t aexitThrows
      (⟨some t1, delKey bs.current_sessions session_id⟩,
       ⟨true, true, none⟩)

/-- The fields of `GET /stats` (lines 224-237) the claims read:
`enabled` and `active_sessions = len(current_sessions)` (the optional
`session_stats` sub-object mirrors `get_session_stats` and carries no
registry information). -/
structure StatsResp where
  enabled : Bool
  active_sessions : Nat
  sessions : List (String × SessionRecord)

/-- `handle_stats` (lines 224-237). -/
def handle_stats (bs : BridgeState) : StatsResp :=
  { enabled := match bs.tracer with | none => false | some t => t.enabled
    active_sessions := bs.current_sessions.length
    sessions := bs.current_sessions }

/-! ## Auxiliary instances and sample states -/

instance {ε α : Type} [DecidableEq ε] [DecidableEq α] :
    DecidableEq (Except ε α) := fun a b =>
  match a, b with
  | .ok x, .ok y =>
      if h : x = y then isTrue (by rw [h])
      else isFalse (fun hc => h (by cases hc; rfl))
  | .error e, .error f =>
      if h : e = f then isTrue (by rw [h])
      else isFalse (fun hc => h (by cases hc; rfl))
  | .ok _, .error _ => isFalse (fun hc => Except.noConfusion hc)
  | .error _, .ok _ => isFalse (fun hc => Except.noConfusion hc)

/-- A representative mid-session state: tracing enabled, rollout
started, trace context open, session started at time 100, three tool
calls traced.  Reachable, e.g., by `start_session` at time 100 on a
freshly enabled tracer followed by three `trace_tool` calls. -/
def sampleActive : TracerState :=
  { enabled := true
    current_rollout := some ⟨1, 1⟩
    current_tracer_ctx := some ()
    session_start_time := some 100
    tool_call_count := 3 }

/-- A bridge whose tracer is enabled and whose registry is empty. -/
def sampleBridgeEnabled : BridgeState := ⟨some sampleActive, []⟩

/-! ## Claim theorems -/

/-- C1: with tracing enabled and an open trace context, when the
wrapped work raises an exception the work does execute exactly once and
the child span is closed, but the caller does NOT receive that same
exception: the generator's `except Exception` catches it and `yield`s a
second time, so `contextlib` delivers
`RuntimeError("generator didn't stop after throw()")` instead.  The
claim's span-setup clause, by contrast, does hold: when span opening
throws, the work still runs once and its result is returned unchanged.
This theorem evaluates the model at the failing input. -/
theorem trace_tool_work_exception_replaced_by_RuntimeError :
    (trace_tool sampleActive .ok (.error (.workExc 7) : Except PyExc Unit)).workRuns = 1 ∧
    (trace_tool sampleActive .ok (.error (.workExc 7) : Except PyExc Unit)).spanClosed = true ∧
    (trace_tool sampleActive .ok (.error (.workExc 7) : Except PyExc Unit)).outcome
      = .error .runtimeGeneratorDidNotStop ∧
    (trace_tool sampleActive .ok (.error (.workExc 7) : Except PyExc Unit)).outcome
      ≠ .error (.workExc 7) ∧
    (trace_tool sampleActive .openFails (.ok 42 : Except PyExc Nat)).outcome = .ok 42 ∧
    (trace_tool sampleActive .openFails (.ok 42 : Except PyExc Nat)).workRuns = 1 := by
  decide

/-- C2 counterexample: on an enabled tracer in mid-session state, when
closing the trace context fails (`__aexit__` raises), `end_session`
resets nothing — the rollout reference, start time and counter keep
their values and the manager stays ACTIVE, contradicting the claim that
they are reset "even when closing the trace context fails". -/
theorem end_session_close_failure_keeps_state :
    end_session sampleActive true = sampleActive ∧
    (end_session sampleActive true).current_rollout = some ⟨1, 1⟩ ∧
    (end_session sampleActive true).session_start_time = some 100 ∧
    (end_session sampleActive true).tool_call_count = 3 ∧
    ¬ (end_session sampleActive true).isIdle := by
  decide

/-- C2 (amended): on an enabled tracer, `end_session` resets the
rollout reference, start time, counter and context handle to their idle
values whenever closing the trace context does not fail (or there is no
open context); when a context is open and its exit call raises, the
exception is absorbed but every field keeps its value, so the manager
can remain ACTIVE. -/
theorem end_session_resets_iff_close_succeeds (s : TracerState)
    (h : s.enabled = true) :
    (∀ b : Bool, b = false ∨ s.current_tracer_ctx = none →
      (end_session s b).isIdle) ∧
    (s.current_tracer_ctx.isSome = true → end_session s true = s) := by
  constructor
  · intro b hb
    rcases hb with hb | hb
    · subst hb
      simp [end_session, h, TracerState.isIdle]
    · simp [end_session, h, hb, TracerState.isIdle]
  · intro hc
    simp [end_session, h, hc]

/-- C2 witness: the amended theorem applied at `sampleActive`. -/
theorem end_session_resets_iff_close_succeeds_witness :
    (end_session sampleActive false).isIdle ∧
    end_session sampleActive true = sampleActive :=
  ⟨(end_session_resets_iff_close_succeeds sampleActive rfl).1 false (Or.inl rfl),
   (end_session_resets_iff_close_succeeds sampleActive rfl).2 rfl⟩

/-- C3: with the gate closed (`enabled = False`), `start_session`,
`emit_task_reward` and `end_session` leave the whole tracer state
unchanged and emit nothing, and `trace_tool` is a transparent
pass-through: state unchanged, the wrapped work executes exactly once,
no span is opened, and the work's outcome (normal result or its own
exception) reaches the caller unchanged.  No operation itself raises:
each is modelled by a total function because every exception path in
the source is absorbed by its `try/except`. -/
theorem gate_closed_all_noop (s : TracerState) (h : s.enabled = false) :
    (∀ (now : ℚ) (rollout : Option Rollout) (f : Bool),
      start_session s now rollout f = s) ∧
    (∀ (α : Type) (setup : SpanSetup) (work : Except PyExc α),
      trace_tool s setup work =
        { state := s, workRuns := 1, spanOpened := false
          spanClosed := true, outcome := work }) ∧
    (∀ (args : RewardArgs) (now : ℚ), emit_task_reward s args now = none) ∧
    (∀ b : Bool, end_session s b = s) := by
  refine ⟨?_, ?_, ?_, ?_⟩ <;> intros <;>
    simp [start_session, trace_tool, emit_task_reward, end_session, h]

/-- C3 witness: the theorem applied at the disabled idle tracer. -/
theorem gate_closed_all_noop_witness :
    start_session (idleTracer false) 5 (some ⟨1, 1⟩) false = idleTracer false ∧
    trace_tool (idleTracer false) .ok (.ok 42 : Except PyExc Nat) =
      { state := idleTracer false, workRuns := 1, spanOpened := false
        spanClosed := true, outcome := .ok 42 } ∧
    emit_task_reward (idleTracer false) ⟨true, none, none, none, none⟩ 0 = none ∧
    end_session (idleTracer false) true = idleTracer false :=
  ⟨(gate_closed_all_noop _ rfl).1 5 (some ⟨1, 1⟩) false,
   (gate_closed_all_noop _ rfl).2.1 Nat .ok (.ok 42),
   (gate_closed_all_noop _ rfl).2.2.1 ⟨true, none, none, none, none⟩ 0,
   (gate_closed_all_noop _ rfl).2.2.2 true⟩

/-- C4 counterexample: `tokens_used = 0` and `expected_tokens = 100`
are both provided and `0 < 100`, yet no token bonus is applied — the
Python guard `if tokens_used and expected_tokens and ...` tests
truthiness, and `0` is falsy.  The whole reward at this input is the
bare base `1.0`, not the claimed `1.1`. -/
theorem tokenBonus_zero_used_no_bonus :
    tokenBonus (some 0) (some 100) = 0 ∧ ((0 : Int) < 100) ∧
    (0 : ℚ) ≠ 1/10 ∧
    computeReward true (some 0) (some 100) none none none 50 = 1 := by
  refine ⟨by simp [tokenBonus, truthyInt], by norm_num, by norm_num, ?_⟩
  simp [computeReward, baseReward, tokenBonus, timeBonus,
    effectiveDuration, truthyInt, truthyRat, feedbackBonus]

/-- C4 (amended): the `+0.1` token bonus is added iff `tokens_used`
and `expected_tokens` are both provided, both *nonzero* (Python
truthiness), and `tokens_used < expected_tokens`; in every other case
the bonus is `0`.  In particular a provided `tokens_used = 0` never
earns the bonus, and a missing argument never does. -/
theorem tokenBonus_characterization (tu et : Option Int) :
    (tokenBonus tu et = 1/10 ↔
      ∃ n m : Int, tu = some n ∧ et = some m ∧ n ≠ 0 ∧ m ≠ 0 ∧ n < m) ∧
    (tokenBonus tu et = 1/10 ∨ tokenBonus tu et = 0) := by
  constructor
  · rcases tu with _ | n <;> rcases et with _ | m <;>
      simp [tokenBonus, truthyInt]
  · rcases tu with _ | n <;> rcases et with _ | m <;>
      simp [tokenBonus, truthyInt]
    exact fun _ _ => lt_or_le n m

/-- C5 counterexample: an explicit `duration_seconds = 0.0` is provided
and `0.0 < 30.0`, yet no time bonus is applied — the Python guard
`if duration_seconds and duration_seconds < 30.0` tests truthiness and
`0.0` is falsy.  The whole reward at this input is the bare base `1.0`,
not the claimed `1.1`. -/
theorem timeBonus_zero_duration_no_bonus :
    timeBonus (some 0) (some 100) 110 = 0 ∧ (0 : ℚ) < 30 ∧
    computeReward true none none (some 0) none (some 100) 110 = 1 := by
  refine ⟨by simp [timeBonus, effectiveDuration, truthyRat], by norm_num, ?_⟩
  simp [computeReward, baseReward, tokenBonus, timeBonus,
    effectiveDuration, truthyInt, truthyRat, feedbackBonus]

/-- C5 (amended): the `+0.1` time bonus is added iff either an explicit
`duration_seconds` is provided that is *nonzero* (Python truthiness)
and `< 30.0`, or `duration_seconds` is absent, the session start time
is set and nonzero, and the elapsed time `now − start` is nonzero and
`< 30.0`; in every other case (including an explicit duration of
`0.0`, or a missing duration with no usable start time) the bonus is
`0`. -/
theorem timeBonus_characterization (d sst : Option ℚ) (now : ℚ) :
    (timeBonus d sst now = 1/10 ↔
      ((∃ e, d = some e ∧ e ≠ 0 ∧ e < 30) ∨
       (d = none ∧ ∃ t, sst = some t ∧ t ≠ 0 ∧
          now - t ≠ 0 ∧ now - t < 30))) ∧
    (timeBonus d sst now = 1/10 ∨ timeBonus d sst now = 0) := by
  constructor
  · rcases d with _ | e
    · rcases sst with _ | t
      · simp [timeBonus, effectiveDuration, truthyRat]
      · by_cases ht : t = 0
        · subst ht
          simp [timeBonus, effectiveDuration, truthyRat]
        · simp [timeBonus, effectiveDuration, truthyRat, ht]
    · simp [timeBonus, effectiveDuration, truthyRat]
  · rcases d with _ | e
    · rcases sst with _ | t
      · simp [timeBonus, effectiveDuration, truthyRat]
      · by_cases ht : t = 0
        · subst ht
          simp [timeBonus, effectiveDuration, truthyRat]
        · simp [timeBonus, effectiveDuration, truthyRat, ht]
          exact fun _ => lt_or_le _ _
    · simp [timeBonus, effectiveDuration, truthyRat]
      exact fun _ => lt_or_le _ _

/-- C6: the `enabled` flag is a one-way latch — no operation ever turns
it from `false` to `true`; a failure of `store.start_rollout` inside
`start_session` forces `enabled = false`; a failure of only the
trace-context-open step leaves `enabled = true` and merely sets the
context handle to `None` (and a fully successful `start_session` also
leaves `enabled = true`), so later sessions can still be traced. -/
theorem enabled_one_way_latch :
    (∀ (s : TracerState) (op : Op), s.enabled = false →
      (step s op).enabled = false) ∧
    (∀ (s : TracerState) (now : ℚ) (f : Bool), s.enabled = true →
      (start_session s now none f).enabled = false) ∧
    (∀ (s : TracerState) (now : ℚ) (r : Rollout), s.enabled = true →
      (start_session s now (some r) true).enabled = true ∧
      (start_session s now (some r) true).current_tracer_ctx = none ∧
      (start_session s now (some r) false).enabled = true) := by
  refine ⟨?_, ?_, ?_⟩
  · intro s op h
    cases op <;>
      simp [step, start_session, trace_tool, end_session, h]
  · intro s now f h
    simp [start_session, h]
  · intro s now r h
    refine ⟨?_, ?_, ?_⟩ <;> simp [start_session, h]

/-- C6 witness: the three latch properties at concrete states. -/
theorem enabled_one_way_latch_witness :
    (step (idleTracer false) (.endSession false)).enabled = false ∧
    (start_session sampleActive 5 none false).enabled = false ∧
    (start_session sampleActive 5 (some ⟨2, 2⟩) true).enabled = true :=
  ⟨enabled_one_way_latch.1 (idleTracer false) (.endSession false) rfl,
   enabled_one_way_latch.2.1 sampleActive 5 false rfl,
   (enabled_one_way_latch.2.2 sampleActive 5 ⟨2, 2⟩ rfl).1⟩

/-- C7 counterexample: `emit_task_reward` on the same tracer state with
the same arguments (`success = True`, everything else `None`) yields
different reward values at two different wall-clock instants — when
`duration_seconds` is `None` and a session start time is set, the
elapsed time `time.time() − start` decides the time bonus, so the
reward is not a function of arguments and tracer state alone. -/
theorem emit_reward_clock_dependent :
    emit_task_reward sampleActive ⟨true, none, none, none, none⟩ 110 =
      some (11/10) ∧
    emit_task_reward sampleActive ⟨true, none, none, none, none⟩ 200 =
      some 1 ∧
    emit_task_reward sampleActive ⟨true, none, none, none, none⟩ 110 ≠
      emit_task_reward sampleActive ⟨true, none, none, none, none⟩ 200 := by
  refine ⟨?_, ?_, ?_⟩ <;>
    norm_num [emit_task_reward, sampleActive, computeReward, baseReward,
      tokenBonus, timeBonus, effectiveDuration, truthyInt, truthyRat,
      feedbackBonus]

/-- C7 (amended): the reward computation is deterministic once the
wall-clock reading is fixed; in particular, whenever an explicit
`duration_seconds` is provided the computed reward does not depend on
the current time at all, so two invocations with identical arguments
and identical tracer state then yield identical values. -/
theorem emit_reward_deterministic_given_duration (s : TracerState)
    (args : RewardArgs) (d : ℚ) (now1 now2 : ℚ)
    (h : args.duration_seconds = some d) :
    emit_task_reward s args now1 = emit_task_reward s args now2 := by
  simp [emit_task_reward, computeReward, timeBonus, effectiveDuration, h]

/-- C7 witness: the amended determinism at a concrete input. -/
theorem emit_reward_deterministic_given_duration_witness :
    emit_task_reward sampleActive ⟨true, none, none, some 5, none⟩ 110 =
      emit_task_reward sampleActive ⟨true, none, none, some 5, none⟩ 200 :=
  emit_reward_deterministic_given_duration sampleActive
    ⟨true, none, none, some 5, none⟩ 5 110 200 rfl

/-- C8: with the feature flag off, starting from the freshly imported
bridge module, `POST /session/start` with body `{"message": "hi"}`
replies `success: True` with the generated session id and
`enabled: False` and registers the session; `GET /stats` then reports
one active session; `POST /session/end` with that id replies
`success: True, ended: False` and removes the registry entry; a final
`GET /stats` reports zero active sessions.  (The backend-behaviour
parameters `rollout`, `ctxOpenFails`, `aexitThrows` and the library
availability are irrelevant because the flag-off tracer never calls
the backend.) -/
theorem flag_off_bridge_scenario (genTs nowIso : String) (now : ℚ)
    (libAvailable constructFails : Bool) (rollout : Option Rollout)
    (ctxOpenFails aexitThrows : Bool) :
    (handle_session_start initialBridgeState "hi" none genTs
      false libAvailable constructFails now rollout ctxOpenFails nowIso).2 =
      ⟨true, "session-" ++ genTs, false⟩ ∧
    (handle_stats (handle_session_start initialBridgeState "hi" none genTs
      false libAvailable constructFails now rollout ctxOpenFails
      nowIso).1).active_sessions = 1 ∧
    hasKey (handle_session_start initialBridgeState "hi" none genTs
      false libAvailable constructFails now rollout ctxOpenFails
      nowIso).1.current_sessions ("session-" ++ genTs) = true ∧
    (handle_session_end (handle_session_start initialBridgeState "hi" none
      genTs false libAvailable constructFails now rollout ctxOpenFails
      nowIso).1 (some ("session-" ++ genTs)) aexitThrows).2 =
      ⟨true, false, some "tracing disabled"⟩ ∧
    (handle_stats (handle_session_end (handle_session_start
      initialBridgeState "hi" none genTs false libAvailable constructFails
      now rollout ctxOpenFails nowIso).1
      (some ("session-" ++ genTs)) aexitThrows).1).active_sessions = 0 := by
  refine ⟨?_, ?_, ?_, ?_, ?_⟩ <;>
    simp [handle_session_start, handle_session_end, handle_stats,
      initialBridgeState, initTracer, idleTracer, start_session,
      setKey, hasKey, delKey]

/-- C9 counterexample: on an enabled mid-session tracer whose context
exit call raises, `end_session` leaves the manager ACTIVE, and a second
`end_session` (whose exit call raises again) leaves it ACTIVE too — so
"after each of the two calls the manager is in the IDLE state" fails
for this tracer state. -/
theorem end_session_twice_close_failure_not_idle :
    ¬ (end_session sampleActive true).isIdle ∧
    ¬ (end_session (end_session sampleActive true) true).isIdle := by
  decide

/-- C9 (amended): `end_session` never raises (every exception path is
absorbed), and on an enabled tracer whose trace-context close does not
throw, calling it twice in a row leaves the manager IDLE after each
call, the second call being a no-op on the already-IDLE state (whatever
the backend would do on that second call). -/
theorem end_session_idempotent_when_close_succeeds (s : TracerState)
    (h : s.enabled = true) :
    (end_session s false).isIdle ∧
    (end_session (end_session s false) false).isIdle ∧
    (∀ b : Bool, end_session (end_session s false) b = end_session s false) := by
  refine ⟨?_, ?_, ?_⟩ <;>
    simp [end_session, h, TracerState.isIdle]

/-- C9 witness: the amended idempotence at `sampleActive`. -/
theorem end_session_idempotent_when_close_succeeds_witness :
    (end_session sampleActive false).isIdle ∧
    (end_session (end_session sampleActive false) false).isIdle :=
  ⟨(end_session_idempotent_when_close_succeeds sampleActive rfl).1,
   (end_session_idempotent_when_close_succeeds sampleActive rfl).2.1⟩

/-- C10: with the tracer present and enabled, `POST /tool/trace` for a
session id that is not registered still replies
`success: True, traced: True` echoing the tool name, and the bridge
state is completely unchanged: no registry entry is created and no
tool counter is incremented (the handler only increments the counter
of a registered id, lines 115-116). -/
theorem tool_trace_unknown_session (bs : BridgeState) (t : TracerState)
    (sid : String) (tool : Option String)
    (ht : bs.tracer = some t) (he : t.enabled = true)
    (hs : hasKey bs.current_sessions sid = false) :
    handle_tool_trace bs (some sid) tool = (bs, ⟨true, true, tool, none⟩) := by
  simp [handle_tool_trace, ht, he, hs]
  rw [← ht]

/-- C10 witness: the theorem at an enabled bridge with an empty
registry and an unknown session id. -/
theorem tool_trace_unknown_session_witness :
    handle_tool_trace sampleBridgeEnabled (some "nope") (some "web_search") =
      (sampleBridgeEnabled, ⟨true, true, some "web_search", none⟩) :=
  tool_trace_unknown_session sampleBridgeEnabled sampleActive "nope"
    (some "web_search") rfl rfl rfl

end OpenClawLightning
